import Mathlib

/-!
Verification of the DART Study Monitor derived-metrics and alert-engine core
(`backend/src/services/derivedMetrics.ts`, the alert engine module, and the
threshold configuration) as a shallow embedding in Lean.

Modelling conventions:
* JavaScript numbers are modelled as exact rationals (`ℚ`).  The source never
  constructs `NaN`/`Infinity` except on paths that are noted at each site; where
  a claim depends on such a path (the clinical-signs incidence check divides by a
  possibly-zero group size) the undefined value is modelled explicitly with
  `Option ℚ` (`none` = NaN) together with JavaScript's comparison semantics
  (`NaN > x` is `false`).
* `Math.sqrt` has no computable exact image in `ℚ`; wherever the source takes a
  square root (`sem`, the milestone-delay control SD) the embedding carries the
  radicand (`semSq`, `controlVar`) and the theorems relate the computable
  comparison used by the code to the real-valued `Real.sqrt` form.
* A JavaScript `Set` preserves first-insertion order; it is modelled by `jsSet`.
  `Array.prototype.sort` with a valid comparator over values that are totally
  ordered and pairwise-distinct (or numerically equal) returns the unique sorted
  arrangement, modelled by `List.insertionSort`.
* The module-level mutable alert-id counter is modelled by explicit state
  passing: `evaluateAlerts` takes the counter value and numbers its alerts
  sequentially from it, exactly as `alertId()` does.
* Alert messages (human-readable prose built with `toFixed`) are presentation
  text never inspected by any logic and are omitted from the `Alert` record.
-/

namespace DSM

-- ── JavaScript Set insertion order ──────────────────────────────────────────

/-- One `Set.add`: appends the element unless it is already present, preserving
first-insertion order. -/
def setInsert [DecidableEq α] (acc : List α) (x : α) : List α :=
  if x ∈ acc then acc else acc ++ [x]

/-- The list of distinct elements of `l` in first-occurrence order: the result
of inserting the elements of `l` into an initially empty JavaScript `Set`. -/
def jsSet [DecidableEq α] (l : List α) : List α :=
  l.foldl setInsert []

theorem mem_foldl_setInsert [DecidableEq α] (l : List α) (acc : List α) (a : α) :
    a ∈ l.foldl setInsert acc ↔ a ∈ acc ∨ a ∈ l := by
  induction l generalizing acc with
  | nil => simp
  | cons x xs ih =>
    rw [List.foldl_cons, ih]
    unfold setInsert
    split
    · rename_i hx
      simp only [List.mem_cons]
      constructor
      · rintro (h | h)
        · exact Or.inl h
        · exact Or.inr (Or.inr h)
      · rintro (h | h | h)
        · exact Or.inl h
        · exact Or.inl (h ▸ hx)
        · exact Or.inr h
    · simp only [List.mem_append, List.mem_singleton, List.mem_cons]
      tauto

theorem nodup_foldl_setInsert [DecidableEq α] (l : List α) (acc : List α)
    (h : acc.Nodup) : (l.foldl setInsert acc).Nodup := by
  induction l generalizing acc with
  | nil => simpa using h
  | cons x xs ih =>
    rw [List.foldl_cons]
    apply ih
    unfold setInsert
    split
    · exact h
    · rename_i hx
      simp [List.nodup_append, h, hx]

theorem mem_jsSet [DecidableEq α] (l : List α) (a : α) : a ∈ jsSet l ↔ a ∈ l := by
  unfold jsSet; rw [mem_foldl_setInsert]; simp

theorem nodup_jsSet [DecidableEq α] (l : List α) : (jsSet l).Nodup :=
  nodup_foldl_setInsert l [] List.nodup_nil

-- ── JavaScript default string comparison ────────────────────────────────────

/-- Lexicographic comparison of character lists by code point, the order
`Array.prototype.sort()`s default comparator induces on strings (they agree on
all strings of basic-plane characters, which is all the data model produces). -/
def charListLe : List Char → List Char → Bool
  | [], _ => true
  | _ :: _, [] => false
  | a :: as, b :: bs =>
    if a.toNat < b.toNat then true
    else if b.toNat < a.toNat then false
    else charListLe as bs

/-- Comparison `strLe a b`: string `a` sorts no later than `b` under the
JavaScript default comparator. -/
def strLe (a b : String) : Bool :=
  charListLe a.data b.data

theorem charListLe_total (a b : List Char) :
    charListLe a b = true ∨ charListLe b a = true := by
  induction a generalizing b with
  | nil => left; rfl
  | cons x xs ih =>
    cases b with
    | nil => right; rfl
    | cons y ys =>
      unfold charListLe
      rcases Nat.lt_trichotomy x.toNat y.toNat with h | h | h
      · left; simp [h]
      · have h1 : ¬ x.toNat < y.toNat := by omega
        have h2 : ¬ y.toNat < x.toNat := by omega
        simpa [h1, h2] using ih ys
      · right; simp [h]

theorem charListLe_trans (a b c : List Char)
    (hab : charListLe a b = true) (hbc : charListLe b c = true) :
    charListLe a c = true := by
  induction a generalizing b c with
  | nil => rfl
  | cons x xs ih =>
    cases b with
    | nil => simp [charListLe] at hab
    | cons y ys =>
      cases c with
      | nil => simp [charListLe] at hbc
      | cons z zs =>
        unfold charListLe at hab hbc ⊢
        rcases Nat.lt_trichotomy x.toNat y.toNat with hxy | hxy | hxy <;>
          rcases Nat.lt_trichotomy y.toNat z.toNat with hyz | hyz | hyz <;>
          rcases Nat.lt_trichotomy x.toNat z.toNat with hxz | hxz | hxz <;>
          simp_all <;> try omega
        exact ih ys zs hab hbc

/-- The propositional form of `strLe`, used as the sorting relation. -/
def strLeP (a b : String) : Prop := strLe a b = true

instance : DecidableRel strLeP := fun _ _ => inferInstanceAs (Decidable (_ = true))

instance : IsTotal String strLeP :=
  ⟨fun a b => charListLe_total a.data b.data⟩

instance : IsTrans String strLeP :=
  ⟨fun a b c => charListLe_trans a.data b.data c.data⟩

-- ── Statistical primitives (derivedMetrics.ts lines 15–60) ──────────────────

/-- Source `mean(values)`: arithmetic mean, `0` on empty input. -/
def mean (values : List ℚ) : ℚ :=
  if values.length = 0 then 0 else values.sum / (values.length : ℚ)

/-- The radicand of `sem(values)`: the source returns
`Math.sqrt(variance / values.length)` with `variance` the Bessel-corrected
(`n − 1` denominator) sample variance, and `0` when `length ≤ 1`.  Since the
square root of a rational is irrational in general, the embedding carries
`semSq = variance / n`; `sem = √semSq`, and `semSq = 0 ↔ sem = 0`. -/
def semSq (values : List ℚ) : ℚ :=
  if values.length ≤ 1 then 0
  else
    ((values.map (fun v => (v - mean values) ^ 2)).sum / ((values.length : ℚ) - 1)) /
      (values.length : ℚ)

/-- Source `median(values)`: middle element (or mean of the two middle elements)
of the ascending sort, `0` on empty input. -/
def median (values : List ℚ) : ℚ :=
  if values.length = 0 then 0
  else
    let sorted := List.insertionSort (· ≤ ·) values
    let mid := values.length / 2
    if values.length % 2 ≠ 0 then sorted.getD mid 0
    else (sorted.getD (mid - 1) 0 + sorted.getD mid 0) / 2

/-- Source `quantile(values, q)`: linear-interpolation (R-7) quantile over the
ascending sort, `0` on empty input.  `q ∈ [0,1]` (the source calls it only with
`0.25` and `0.75`); out-of-range indices fall back like JavaScript's
`sorted[base+1] !== undefined` test. -/
def quantile (values : List ℚ) (q : ℚ) : ℚ :=
  if values.length = 0 then 0
  else
    let sorted := List.insertionSort (· ≤ ·) values
    let pos := ((values.length : ℚ) - 1) * q
    let base := (⌊pos⌋).toNat
    let rest := pos - (⌊pos⌋ : ℚ)
    match sorted[base + 1]? with
    | some v => sorted.getD base 0 + rest * (v - sorted.getD base 0)
    | none => sorted.getD base 0

/-- Source `round(v, 2)` — the only precision the source uses:
`Math.round(v * 100) / 100`, with JavaScript's half-up `Math.round`. -/
def jsRound (v : ℚ) : ℚ :=
  (⌊v * 100 + 1 / 2⌋ : ℚ) / 100

/-- Box-plot summary bundle (`GroupBoxData`). -/
structure GroupBoxData where
  groupName : String
  groupId : String
  values : List ℚ
  mean : ℚ
  median : ℚ
  min : ℚ
  max : ℚ
  q1 : ℚ
  q3 : ℚ
deriving DecidableEq

/-- Source `toBoxData(groupName, groupId, values)`: `Math.min`/`Math.max` over an empty
spread are `±Infinity`, which the source guards with a length test resolving to
`0`. -/
def toBoxData (groupName groupId : String) (values : List ℚ) : GroupBoxData :=
  { groupName := groupName, groupId := groupId, values := values
    mean := jsRound (mean values)
    median := jsRound (median values)
    min := match values.min? with | some m => jsRound m | none => 0
    max := match values.max? with | some m => jsRound m | none => 0
    q1 := jsRound (quantile values (1 / 4))
    q3 := jsRound (quantile values (3 / 4)) }

-- ── Data model (types.ts) ───────────────────────────────────────────────────

/-- Study metadata.  Only `studyId` is ever read by the derived-metrics and
alert computations; the remaining descriptive fields are omitted. -/
structure Study where
  studyId : String
deriving DecidableEq

/-- Dose group.  Index 0 of `StudyDataset.groups` is the control group. -/
structure Group where
  groupId : String
  studyId : String
  name : String
  doseLevel : ℚ
  doseUnits : String
  sex : String
  plannedDams : ℚ
  actualDams : ℚ
deriving DecidableEq

structure BodyWeightRecord where
  day : ℚ
  dayType : String
  weight : ℚ
  changeFromBaseline : ℚ
deriving DecidableEq

structure FoodConsumptionRecord where
  dayStart : ℚ
  dayEnd : ℚ
  dayType : String
  consumption : ℚ
deriving DecidableEq

structure ClinicalObservation where
  day : ℚ
  dayType : String
  findingTerm : String
  severity : String
deriving DecidableEq

structure Animal where
  animalId : String
  studyId : String
  groupId : String
  sex : String
  litterId : Option String
  matingPairId : Option String
  pregnancyStatus : String
  maternalDeathFlag : Bool
  maternalTerminationReason : Option String
  bodyWeights : List BodyWeightRecord
  foodConsumption : List FoodConsumptionRecord
  clinicalObservations : List ClinicalObservation
deriving DecidableEq

structure Litter where
  litterId : String
  studyId : String
  damAnimalId : String
  groupId : String
  implantations : ℚ
  corporaLutea : ℚ
  resorptionsEarly : ℚ
  resorptionsLate : ℚ
  liveFetuses : ℚ
  deadFetuses : ℚ
  sexRatio : ℚ
  litterWeight : ℚ
  meanFetalWeight : ℚ
  postnatalPups : Option ℚ
  pupsSurvivingPND4 : Option ℚ
  pupsSurvivingPND21 : Option ℚ
deriving DecidableEq

structure FetalFinding where
  findingCode : String
  findingTerm : String
  classification : String
  examType : String
  laterality : String
  location : String
deriving DecidableEq

structure Fetus where
  fetusId : String
  litterId : String
  studyId : String
  groupId : String
  sex : String
  weight : ℚ
  viabilityStatus : String
  examType : String
  findings : List FetalFinding
  gestationalDayOfObservation : ℚ
deriving DecidableEq

structure PupWeightRecord where
  day : ℚ
  weight : ℚ
deriving DecidableEq

structure DevelopmentalMilestone where
  milestone : String
  dayAchieved : Option ℚ
deriving DecidableEq

structure Pup where
  pupId : String
  litterId : String
  studyId : String
  groupId : String
  sex : String
  viabilityStatus : String
  deathDay : Option ℚ
  bodyWeights : List PupWeightRecord
  milestones : List DevelopmentalMilestone
  neurobehaviorScore : Option ℚ
deriving DecidableEq

/-- The full study dataset.  The `findings` and `timepoints` collections of the
source type are never read by the derived-metrics or alert computations and are
omitted. -/
structure StudyDataset where
  study : Study
  groups : List Group
  animals : List Animal
  litters : List Litter
  fetuses : List Fetus
  pups : List Pup
deriving DecidableEq

-- ── Time-series aggregation (derivedMetrics.ts lines 64–117) ────────────────

/-- One `{day, mean, sem}` point of a group time series.  The source stores
`round(sem(values))`; the embedding stores the (unrounded) radicand `semSq`
of `sem` instead, which determines it (see `semSq`). -/
structure TSPoint where
  day : ℚ
  mean : ℚ
  semSq : ℚ
deriving DecidableEq

instance : Inhabited TSPoint := ⟨⟨0, 0, 0⟩⟩

structure GroupTimeSeries where
  groupName : String
  groupId : String
  doseLevel : ℚ
  data : List TSPoint
deriving DecidableEq

/-- The per-day value list: the first observation with the given day key of
each animal that has one; animals without an observation at that key are
skipped (`.find(...)?.x` followed by `filter(≠ undefined)`). -/
def valsAt (animals : List Animal) (recsOf : Animal → List (ℚ × ℚ)) (day : ℚ) :
    List ℚ :=
  animals.filterMap (fun a => ((recsOf a).find? (fun r => decide (r.1 = day))).map Prod.snd)

/-- The shared body of the three animal time-series aggregations: collect the
set of distinct day keys across the group's animals in a `Set`, sort ascending,
and emit one `{day, mean, sem}` point per key over the animals observed at that
key.  `recsOf` extracts `(day key, value)` pairs from one animal, in record
order. -/
def timeSeriesData (animals : List Animal) (recsOf : Animal → List (ℚ × ℚ)) :
    List TSPoint :=
  let sortedDays :=
    List.insertionSort (· ≤ ·) (jsSet (animals.flatMap (fun a => (recsOf a).map Prod.fst)))
  sortedDays.map (fun day =>
    { day := day
      mean := jsRound (mean (valsAt animals recsOf day))
      semSq := semSq (valsAt animals recsOf day) })

/-- The `(day, weight)` observations of one animal, in record order. -/
def bwRecsOf (a : Animal) : List (ℚ × ℚ) :=
  a.bodyWeights.map (fun bw => (bw.day, bw.weight))

/-- The `(day, changeFromBaseline)` observations of one animal. -/
def bwChangeRecsOf (a : Animal) : List (ℚ × ℚ) :=
  a.bodyWeights.map (fun bw => (bw.day, bw.changeFromBaseline))

/-- The `(dayStart, consumption)` observations of one animal. -/
def fcRecsOf (a : Animal) : List (ℚ × ℚ) :=
  a.foodConsumption.map (fun fc => (fc.dayStart, fc.consumption))

/-- The animals of a group, in dataset order. -/
def groupAnimalsOf (ds : StudyDataset) (g : Group) : List Animal :=
  ds.animals.filter (fun a => decide (a.groupId = g.groupId))

def computeBodyWeightByGroup (ds : StudyDataset) : List GroupTimeSeries :=
  ds.groups.map (fun g =>
    { groupName := g.name, groupId := g.groupId, doseLevel := g.doseLevel
      data := timeSeriesData (groupAnimalsOf ds g) bwRecsOf })

def computeBodyWeightChangeByGroup (ds : StudyDataset) : List GroupTimeSeries :=
  ds.groups.map (fun g =>
    { groupName := g.name, groupId := g.groupId, doseLevel := g.doseLevel
      data := timeSeriesData (groupAnimalsOf ds g) bwChangeRecsOf })

def computeFoodConsumptionByGroup (ds : StudyDataset) : List GroupTimeSeries :=
  ds.groups.map (fun g =>
    { groupName := g.name, groupId := g.groupId, doseLevel := g.doseLevel
      data := timeSeriesData (groupAnimalsOf ds g) fcRecsOf })

-- ── Pregnancy outcomes (derivedMetrics.ts lines 121–132) ────────────────────

structure PregnancyOutcome where
  groupName : String
  groupId : String
  pregnant : Nat
  notPregnant : Nat
  aborted : Nat
deriving DecidableEq

def computePregnancyOutcomes (ds : StudyDataset) : List PregnancyOutcome :=
  ds.groups.map (fun g =>
    let groupAnimals := groupAnimalsOf ds g
    { groupName := g.name
      groupId := g.groupId
      pregnant := (groupAnimals.filter (fun a => decide (a.pregnancyStatus = "pregnant"))).length
      notPregnant := (groupAnimals.filter (fun a => decide (a.pregnancyStatus = "not pregnant"))).length
      aborted := (groupAnimals.filter (fun a => decide (a.pregnancyStatus = "aborted"))).length })

-- ── Clinical signs incidence (derivedMetrics.ts lines 136–157) ──────────────

structure CSIGroupEntry where
  groupName : String
  groupId : String
  incidence : Nat
  total : Nat
deriving DecidableEq

structure ClinicalSignIncidence where
  findingTerm : String
  groups : List CSIGroupEntry
deriving DecidableEq

/-- Distinct clinical finding terms in first-occurrence order, then sorted
alphabetically (`[...termSet].sort()`). -/
def computeClinicalSignsIncidence (ds : StudyDataset) : List ClinicalSignIncidence :=
  let terms :=
    List.insertionSort strLeP
      (jsSet (ds.animals.flatMap (fun a => a.clinicalObservations.map (·.findingTerm))))
  terms.map (fun term =>
    { findingTerm := term
      groups := ds.groups.map (fun g =>
        let groupAnimals := groupAnimalsOf ds g
        { groupName := g.name
          groupId := g.groupId
          incidence := (groupAnimals.filter (fun a =>
            a.clinicalObservations.any (fun obs => decide (obs.findingTerm = term)))).length
          total := groupAnimals.length }) })

-- ── Litter-based metrics (derivedMetrics.ts lines 172–228) ──────────────────

/-- The litters of a group, in dataset order. -/
def groupLittersOf (ds : StudyDataset) (g : Group) : List Litter :=
  ds.litters.filter (fun l => decide (l.groupId = g.groupId))

/-- Per-litter pre-implantation loss
`(corporaLutea − implantations)/corporaLutea × 100`, `0` when the denominator
`corporaLutea` is not positive (the source guard `l.corporaLutea > 0`). -/
def preImpValue (l : Litter) : ℚ :=
  if 0 < l.corporaLutea then
    jsRound (((l.corporaLutea - l.implantations) / l.corporaLutea) * 100)
  else 0

/-- Per-litter post-implantation loss
`(implantations − liveFetuses)/implantations × 100`, `0` when the denominator
`implantations` is not positive (the source guard `l.implantations > 0`). -/
def postImpValue (l : Litter) : ℚ :=
  if 0 < l.implantations then
    jsRound (((l.implantations - l.liveFetuses) / l.implantations) * 100)
  else 0

structure LitterSummaryRow where
  groupName : String
  doseLevel : ℚ
  dams : Nat
  pregnantDams : Nat
  littersEvaluated : Nat
  meanLitterSize : ℚ
  meanImplantations : ℚ
  meanResorptions : ℚ
  meanLiveFetuses : ℚ
  meanFetalWeight : ℚ
deriving DecidableEq

structure LitterData where
  implantations : List GroupBoxData
  earlyResorptions : List GroupBoxData
  lateResorptions : List GroupBoxData
  liveFetuses : List GroupBoxData
  preImplantationLoss : List GroupBoxData
  postImplantationLoss : List GroupBoxData
  fetalWeights : List GroupBoxData
  litterSummaryTable : List LitterSummaryRow
deriving DecidableEq

def computeLitterData (ds : StudyDataset) : LitterData :=
  let byGroup := fun (extractor : Litter → ℚ) =>
    ds.groups.map (fun g =>
      toBoxData g.name g.groupId ((groupLittersOf ds g).map extractor))
  { implantations := byGroup (·.implantations)
    earlyResorptions := byGroup (·.resorptionsEarly)
    lateResorptions := byGroup (·.resorptionsLate)
    liveFetuses := byGroup (·.liveFetuses)
    preImplantationLoss :=
      ds.groups.map (fun g =>
        toBoxData g.name g.groupId ((groupLittersOf ds g).map preImpValue))
    postImplantationLoss :=
      ds.groups.map (fun g =>
        toBoxData g.name g.groupId ((groupLittersOf ds g).map postImpValue))
    fetalWeights := byGroup (·.meanFetalWeight)
    litterSummaryTable :=
      ds.groups.map (fun g =>
        let groupAnimals := groupAnimalsOf ds g
        let groupLitters := groupLittersOf ds g
        { groupName := g.name
          doseLevel := g.doseLevel
          dams := groupAnimals.length
          pregnantDams :=
            (groupAnimals.filter (fun a => decide (a.pregnancyStatus = "pregnant"))).length
          littersEvaluated := groupLitters.length
          meanLitterSize := jsRound (mean (groupLitters.map (fun l => l.liveFetuses + l.deadFetuses)))
          meanImplantations := jsRound (mean (groupLitters.map (·.implantations)))
          meanResorptions := jsRound (mean (groupLitters.map (fun l => l.resorptionsEarly + l.resorptionsLate)))
          meanLiveFetuses := jsRound (mean (groupLitters.map (·.liveFetuses)))
          meanFetalWeight := jsRound (mean (groupLitters.map (·.meanFetalWeight))) }) }

-- ── Fetal findings incidence (derivedMetrics.ts lines 232–281) ──────────────

/-- First-seen metadata for a fetal finding term. -/
structure FindingMeta where
  findingCode : String
  examType : String
  classification : String
deriving DecidableEq

/-- One step of building the finding `Map`: insert the term with its metadata
unless already present — later occurrences of a term never overwrite the
first-seen metadata. -/
def insertFinding (m : List (String × FindingMeta)) (ff : FetalFinding) :
    List (String × FindingMeta) :=
  if ff.findingTerm ∈ m.map Prod.fst then m
  else m ++ [(ff.findingTerm, ⟨ff.findingCode, ff.examType, ff.classification⟩)]

/-- The finding `Map` in insertion order: the source's nested
`for fetus … for finding …` loops visit exactly the sequence
`fetuses.flatMap (·.findings)`. -/
def findingMapOf (fetuses : List Fetus) : List (String × FindingMeta) :=
  (fetuses.flatMap (·.findings)).foldl insertFinding []

structure FFGroupEntry where
  groupName : String
  groupId : String
  affectedLitters : Nat
  totalLitters : Nat
  percentLitters : ℚ
  affectedFetuses : Nat
  totalFetuses : Nat
  percentFetuses : ℚ
deriving DecidableEq

structure FetalFindingRow where
  findingTerm : String
  findingCode : String
  examType : String
  classification : String
  groups : List FFGroupEntry
deriving DecidableEq

structure FetalFindingsData where
  incidenceTable : List FetalFindingRow
  categories : List String
deriving DecidableEq

def computeFetalFindingsData (ds : StudyDataset) : FetalFindingsData :=
  let findingMap := findingMapOf ds.fetuses
  { incidenceTable :=
      findingMap.map (fun e =>
        { findingTerm := e.1
          findingCode := e.2.findingCode
          examType := e.2.examType
          classification := e.2.classification
          groups := ds.groups.map (fun g =>
            let groupLitters := groupLittersOf ds g
            let groupFetuses := ds.fetuses.filter (fun f => decide (f.groupId = g.groupId))
            let affectedLitters := (groupLitters.filter (fun litter =>
              (ds.fetuses.filter (fun f => decide (f.litterId = litter.litterId))).any
                (fun f => f.findings.any (fun ff => decide (ff.findingTerm = e.1))))).length
            let affectedFetuses := (groupFetuses.filter (fun f =>
              f.findings.any (fun ff => decide (ff.findingTerm = e.1)))).length
            { groupName := g.name
              groupId := g.groupId
              affectedLitters := affectedLitters
              totalLitters := groupLitters.length
              percentLitters :=
                if 0 < groupLitters.length then
                  jsRound (((affectedLitters : ℚ) / (groupLitters.length : ℚ)) * 100)
                else 0
              affectedFetuses := affectedFetuses
              totalFetuses := groupFetuses.length
              percentFetuses :=
                if 0 < groupFetuses.length then
                  jsRound (((affectedFetuses : ℚ) / (groupFetuses.length : ℚ)) * 100)
                else 0 }) })
    categories := List.insertionSort strLeP (jsSet (findingMap.map (fun e => e.2.examType))) }

-- ── Postnatal data (derivedMetrics.ts lines 285–374) ────────────────────────

/-- The group id of `dataset.groups[0]`.  Every use site sits inside a map over
`dataset.groups`, so it is only ever evaluated when the group list is nonempty;
the `""` fallback is dead code mirroring nothing. -/
def controlGroupIdOf (ds : StudyDataset) : String :=
  match ds.groups.head? with
  | some g => g.groupId
  | none => ""

/-- The live pups of a group. -/
def livePupsOf (ds : StudyDataset) (gid : String) : List Pup :=
  ds.pups.filter (fun p => decide (p.groupId = gid) && decide (p.viabilityStatus = "live"))

/-- The achieved days of one milestone over a pup list:
`.find(m => m.milestone === milestone)?.dayAchieved` filtered of
`null`/`undefined`. -/
def achievedDays (pups : List Pup) (milestone : String) : List ℚ :=
  pups.filterMap (fun p =>
    ((p.milestones.find? (fun m => decide (m.milestone = milestone))).bind (·.dayAchieved)))

/-- The Bessel-corrected (`n − 1` denominator) sample variance of the control
achieved-day list — the radicand of the source's `controlSD`
(`Math.sqrt` of this expression). -/
def controlVar (cd : List ℚ) : ℚ :=
  (cd.map (fun v => (v - mean cd) ^ 2)).sum / ((cd.length : ℚ) - 1)

/-- The test `d > controlMean + controlSD`, where `controlSD = 1` when the control has
at most one observation and `√controlVar` otherwise.  Since
`controlVar cd ≥ 0`, the comparison against the (irrational) square root is
encoded exactly by `0 < d − mean ∧ controlVar < (d − mean)²`; the theorem
`DSM.isDelayed_iff_delayedSpec` states the equivalence with the literal
real-valued reading. -/
def isDelayed (cd : List ℚ) (d : ℚ) : Bool :=
  if 1 < cd.length then
    decide (0 < d - mean cd) && decide (controlVar cd < (d - mean cd) ^ 2)
  else decide (mean cd + 1 < d)

/-- The spec-side reading of the delayed test, written with `Real.sqrt` exactly
as the source computes it with `Math.sqrt`. -/
def delayedSpec (cd : List ℚ) (d : ℚ) : Prop :=
  ((mean cd : ℚ) : ℝ) +
      (if 1 < cd.length then Real.sqrt ((controlVar cd : ℚ) : ℝ) else 1) < ((d : ℚ) : ℝ)

structure MSGroupEntry where
  groupName : String
  groupId : String
  meanDay : ℚ
  percentDelayed : ℚ
deriving DecidableEq

structure MilestoneIncidence where
  milestone : String
  groups : List MSGroupEntry
deriving DecidableEq

/-- One group entry of a milestone-incidence row. -/
def milestoneEntry (ds : StudyDataset) (milestone : String) (g : Group) :
    MSGroupEntry :=
  let achieved := achievedDays (livePupsOf ds g.groupId) milestone
  let controlDays := achievedDays (livePupsOf ds (controlGroupIdOf ds)) milestone
  let delayed := (achieved.filter (fun d => isDelayed controlDays d)).length
  { groupName := g.name
    groupId := g.groupId
    meanDay := jsRound (mean achieved)
    percentDelayed :=
      if 0 < achieved.length then jsRound (((delayed : ℚ) / (achieved.length : ℚ)) * 100)
      else 0 }

structure PupSexSeries where
  sex : String
  series : List GroupTimeSeries
deriving DecidableEq

structure PostnatalData where
  pupWeightByGroup : List GroupTimeSeries
  pupWeightByGroupAndSex : List PupSexSeries
  milestoneIncidence : List MilestoneIncidence
  neurobehaviorByGroup : List GroupBoxData
deriving DecidableEq

/-- Per-pup `(day, weight)` observations. -/
def pupRecsOf (p : Pup) : List (ℚ × ℚ) :=
  p.bodyWeights.map (fun bw => (bw.day, bw.weight))

/-- The per-day pup weight values over a pup list (first observation per pup at
that day, pups without one skipped). -/
def pupValsAt (pups : List Pup) (day : ℚ) : List ℚ :=
  pups.filterMap (fun p => ((pupRecsOf p).find? (fun r => decide (r.1 = day))).map Prod.snd)

def computePostnatalData (ds : StudyDataset) : PostnatalData :=
  if ds.pups.length = 0 then
    { pupWeightByGroup := [], pupWeightByGroupAndSex := []
      milestoneIncidence := [], neurobehaviorByGroup := [] }
  else
    -- Pup-weight series use the PND day set of *all* pups, not per group.
    let sortedPNDDays :=
      List.insertionSort (· ≤ ·) (jsSet (ds.pups.flatMap (fun p => p.bodyWeights.map (·.day))))
    { pupWeightByGroup :=
        ds.groups.map (fun g =>
          let groupPups := livePupsOf ds g.groupId
          { groupName := g.name, groupId := g.groupId, doseLevel := g.doseLevel
            data := sortedPNDDays.map (fun day =>
              { day := day
                mean := jsRound (mean (pupValsAt groupPups day))
                semSq := semSq (pupValsAt groupPups day) }) })
      pupWeightByGroupAndSex :=
        ["male", "female"].map (fun sex =>
          { sex := sex
            series := ds.groups.map (fun g =>
              let groupPups := (livePupsOf ds g.groupId).filter (fun p => decide (p.sex = sex))
              { groupName := g.name, groupId := g.groupId, doseLevel := g.doseLevel
                data := sortedPNDDays.map (fun day =>
                  { day := day
                    mean := jsRound (mean (pupValsAt groupPups day))
                    semSq := semSq (pupValsAt groupPups day) }) }) })
      milestoneIncidence :=
        (jsSet (ds.pups.flatMap (fun p => p.milestones.map (·.milestone)))).map
          (fun milestone =>
            { milestone := milestone
              groups := ds.groups.map (milestoneEntry ds milestone) })
      neurobehaviorByGroup :=
        ds.groups.map (fun g =>
          toBoxData g.name g.groupId
            ((ds.pups.filter (fun p =>
                decide (p.groupId = g.groupId) && p.neurobehaviorScore.isSome)).filterMap
              (·.neurobehaviorScore))) }

-- ── Maternal bundle (derivedMetrics.ts lines 161–168) ───────────────────────

structure MaternalData where
  bodyWeight : List GroupTimeSeries
  bodyWeightChange : List GroupTimeSeries
  foodConsumption : List GroupTimeSeries
  clinicalSignsIncidence : List ClinicalSignIncidence
deriving DecidableEq

def computeMaternalData (ds : StudyDataset) : MaternalData :=
  { bodyWeight := computeBodyWeightByGroup ds
    bodyWeightChange := computeBodyWeightChangeByGroup ds
    foodConsumption := computeFoodConsumptionByGroup ds
    clinicalSignsIncidence := computeClinicalSignsIncidence ds }

-- ── Threshold configuration (config/thresholds.ts) ──────────────────────────

structure MaternalThresholds where
  bodyWeightLossPercent : ℚ
  foodConsumptionDecreasePercent : ℚ
  deathCount : ℚ
  clinicalSignIncidencePercent : ℚ
deriving DecidableEq

structure DevelopmentalThresholds where
  earlyResorptionThreshold : ℚ
  lateResorptionThreshold : ℚ
  fetalWeightDecreasePercent : ℚ
  malformationIncidencePercent : ℚ
  variationIncidencePercent : ℚ
deriving DecidableEq

structure PostnatalThresholds where
  perinatalMortalityPercent : ℚ
  pupWeightGainDecreasePercent : ℚ
  milestoneDelayDays : ℚ
deriving DecidableEq

structure Thresholds where
  maternal : MaternalThresholds
  developmental : DevelopmentalThresholds
  postnatal : PostnatalThresholds
deriving DecidableEq

/-- The shipped threshold configuration. -/
def THRESHOLDS : Thresholds :=
  { maternal :=
      { bodyWeightLossPercent := 10
        foodConsumptionDecreasePercent := 20
        deathCount := 1
        clinicalSignIncidencePercent := 25 }
    developmental :=
      { earlyResorptionThreshold := 3 / 2
        lateResorptionThreshold := 4 / 5
        fetalWeightDecreasePercent := 10
        malformationIncidencePercent := 5
        variationIncidencePercent := 15 }
    postnatal :=
      { perinatalMortalityPercent := 10
        pupWeightGainDecreasePercent := 15
        milestoneDelayDays := 3 / 2 } }

-- ── Alert engine (alertEngine module) ───────────────────────────────────────

inductive AlertSeverity where
  | red
  | yellow
  | green
deriving DecidableEq

/-- A safety-signal alert.  The human-readable message field of the source is
presentation prose never inspected by any logic and is omitted; `alertId` is
filled in by `assignIds` from the explicit counter state. -/
structure Alert where
  alertId : String
  studyId : String
  groupId : Option String
  category : String
  severity : AlertSeverity
  endpoint : String
deriving DecidableEq

/-- Source `String.padStart(4, '0')`. -/
def pad4 (s : String) : String :=
  if 4 ≤ s.length then s
  else String.mk (List.replicate (4 - s.length) '0') ++ s

/-- The id string `ALT-` followed by `n` padded to four digits, for counter
value `n`. -/
def alertIdStr (n : Nat) : String :=
  "ALT-" ++ pad4 (toString n)

/-- Numbers the collected alerts with consecutive ids starting after `counter`,
exactly as each `alertId()` call increments the module-level counter at push
time. -/
def assignIds (counter : Nat) : List Alert → List Alert
  | [] => []
  | a :: rest => { a with alertId := alertIdStr (counter + 1) } :: assignIds (counter + 1) rest

/-- The test `Math.min(...changes) < -threshold` for one animal; `Math.min()`
of an empty spread is `+Infinity`, for which the comparison is `false`. -/
def worstChangeBelow (T : Thresholds) (a : Animal) : Bool :=
  match (a.bodyWeights.map (·.changeFromBaseline)).min? with
  | some w => decide (w < -T.maternal.bodyWeightLossPercent)
  | none => false

def checkMaternalBodyWeight (T : Thresholds) (ds : StudyDataset) (g : Group)
    (groupAnimals : List Animal) : List Alert :=
  -- Per-animal worst change; the break after the first qualifying animal means
  -- at most one alert, fired iff some animal qualifies.
  (if groupAnimals.any (worstChangeBelow T) then
    [{ alertId := "", studyId := ds.study.studyId, groupId := some g.groupId
       category := "maternal", severity := .red, endpoint := "maternal" }]
  else []) ++
  -- Group-level mean change from first to last record.  The source's
  -- filter(Boolean) drops missing records and weights equal to 0.
  (let baselineWeights :=
    (groupAnimals.filterMap (fun a => a.bodyWeights.head?.map (·.weight))).filter
      (fun w => decide (w ≠ 0))
  let lastWeights :=
    (groupAnimals.filterMap (fun a => a.bodyWeights.getLast?.map (·.weight))).filter
      (fun w => decide (w ≠ 0))
  if 0 < baselineWeights.length ∧ 0 < lastWeights.length then
    let pctChange := ((mean lastWeights - mean baselineWeights) / mean baselineWeights) * 100
    if pctChange < -(T.maternal.bodyWeightLossPercent * (1 / 2)) then
      [{ alertId := "", studyId := ds.study.studyId, groupId := some g.groupId
         category := "maternal"
         severity := if pctChange < -T.maternal.bodyWeightLossPercent then .red else .yellow
         endpoint := "maternal" }]
    else []
  else [])

def checkMaternalFoodConsumption (T : Thresholds) (ds : StudyDataset) (g : Group)
    (groupAnimals controlAnimals : List Animal) : List Alert :=
  let groupFC := groupAnimals.flatMap (fun a => a.foodConsumption.map (·.consumption))
  let controlFC := controlAnimals.flatMap (fun a => a.foodConsumption.map (·.consumption))
  if 0 < groupFC.length ∧ 0 < controlFC.length then
    let pctDecrease := ((mean controlFC - mean groupFC) / mean controlFC) * 100
    if T.maternal.foodConsumptionDecreasePercent < pctDecrease then
      [{ alertId := "", studyId := ds.study.studyId, groupId := some g.groupId
         category := "maternal", severity := .red, endpoint := "maternal" }]
    else if T.maternal.foodConsumptionDecreasePercent * (1 / 2) < pctDecrease then
      [{ alertId := "", studyId := ds.study.studyId, groupId := some g.groupId
         category := "maternal", severity := .yellow, endpoint := "maternal" }]
    else []
  else []

def checkMaternalDeaths (T : Thresholds) (ds : StudyDataset) (g : Group)
    (groupAnimals : List Animal) : List Alert :=
  let deaths := (groupAnimals.filter (·.maternalDeathFlag)).length
  if T.maternal.deathCount ≤ (deaths : ℚ) then
    [{ alertId := "", studyId := ds.study.studyId, groupId := some g.groupId
       category := "maternal", severity := if 2 ≤ deaths then .red else .yellow
       endpoint := "maternal" }]
  else []

/-- In JavaScript `NaN > x` is `false`: the `none` (NaN) percentage never
exceeds a threshold. -/
def optGt (pct : Option ℚ) (t : ℚ) : Bool :=
  match pct with
  | some x => decide (t < x)
  | none => false

def checkMaternalClinicalSigns (T : Thresholds) (ds : StudyDataset) (g : Group)
    (groupAnimals : List Animal) : List Alert :=
  let withSigns := (groupAnimals.filter (fun a => decide (0 < a.clinicalObservations.length))).length
  -- The source computes withSigns / groupAnimals.length * 100 with no
  -- zero-denominator guard: for an empty group this is 0/0 = NaN, modelled
  -- as none.
  let pct : Option ℚ :=
    if 0 < groupAnimals.length then some (((withSigns : ℚ) / (groupAnimals.length : ℚ)) * 100)
    else none
  if optGt pct T.maternal.clinicalSignIncidencePercent then
    [{ alertId := "", studyId := ds.study.studyId, groupId := some g.groupId
       category := "maternal", severity := if optGt pct 50 then .red else .yellow
       endpoint := "maternal" }]
  else []

def checkResorptions (T : Thresholds) (ds : StudyDataset) (g : Group)
    (groupLitters _controlLitters : List Litter) : List Alert :=
  let meanEarly := mean (groupLitters.map (·.resorptionsEarly))
  let meanLate := mean (groupLitters.map (·.resorptionsLate))
  (if T.developmental.earlyResorptionThreshold < meanEarly then
    [{ alertId := "", studyId := ds.study.studyId, groupId := some g.groupId
       category := "developmental"
       severity :=
         if T.developmental.earlyResorptionThreshold * (3 / 2) < meanEarly then .red
         else .yellow
       endpoint := "litter" }]
  else []) ++
  (if T.developmental.lateResorptionThreshold < meanLate then
    [{ alertId := "", studyId := ds.study.studyId, groupId := some g.groupId
       category := "developmental", severity := .yellow, endpoint := "litter" }]
  else [])

def checkFetalWeight (T : Thresholds) (ds : StudyDataset) (g : Group)
    (groupLitters controlLitters : List Litter) : List Alert :=
  let groupMean := mean (groupLitters.map (·.meanFetalWeight))
  let controlMean := mean (controlLitters.map (·.meanFetalWeight))
  if 0 < controlMean then
    let pctDecrease := ((controlMean - groupMean) / controlMean) * 100
    if T.developmental.fetalWeightDecreasePercent < pctDecrease then
      [{ alertId := "", studyId := ds.study.studyId, groupId := some g.groupId
         category := "developmental", severity := .red, endpoint := "fetal" }]
    else if T.developmental.fetalWeightDecreasePercent * (1 / 2) < pctDecrease then
      [{ alertId := "", studyId := ds.study.studyId, groupId := some g.groupId
         category := "developmental", severity := .yellow, endpoint := "fetal" }]
    else []
  else []

def checkMalformations (T : Thresholds) (ds : StudyDataset) (g : Group)
    (groupLitters : List Litter) : List Alert :=
  let littersWithMalf := (groupLitters.filter (fun litter =>
    (ds.fetuses.filter (fun f => decide (f.litterId = litter.litterId))).any
      (fun f => f.findings.any (fun ff => decide (ff.classification = "malformation"))))).length
  let pct : ℚ :=
    if 0 < groupLitters.length then ((littersWithMalf : ℚ) / (groupLitters.length : ℚ)) * 100
    else 0
  if T.developmental.malformationIncidencePercent < pct then
    [{ alertId := "", studyId := ds.study.studyId, groupId := some g.groupId
       category := "developmental"
       severity :=
         if T.developmental.malformationIncidencePercent * 2 < pct then .red else .yellow
       endpoint := "fetal" }]
  else []

def checkPupMortality (T : Thresholds) (ds : StudyDataset) (g : Group) : List Alert :=
  let groupLitters := groupLittersOf ds g
  let totalBorn := (groupLitters.map (fun l => l.postnatalPups.getD 0)).sum
  let survivingPND4 := (groupLitters.map (fun l => l.pupsSurvivingPND4.getD 0)).sum
  let mortality : ℚ :=
    if 0 < totalBorn then ((totalBorn - survivingPND4) / totalBorn) * 100 else 0
  if T.postnatal.perinatalMortalityPercent < mortality then
    [{ alertId := "", studyId := ds.study.studyId, groupId := some g.groupId
       category := "postnatal"
       severity := if T.postnatal.perinatalMortalityPercent * 2 < mortality then .red else .yellow
       endpoint := "postnatal" }]
  else []

/-- Last recorded pup weight, `0` when the pup has no weight records. -/
def getLastWeight (p : Pup) : ℚ :=
  match p.bodyWeights.getLast? with
  | some bw => bw.weight
  | none => 0

def checkPupWeightGain (T : Thresholds) (ds : StudyDataset) (g : Group)
    (controlGroup : Group) : List Alert :=
  let groupPups := livePupsOf ds g.groupId
  let controlPups := livePupsOf ds controlGroup.groupId
  let groupMean := mean (groupPups.map getLastWeight)
  let controlMean := mean (controlPups.map getLastWeight)
  if 0 < controlMean then
    let pctDecrease := ((controlMean - groupMean) / controlMean) * 100
    if T.postnatal.pupWeightGainDecreasePercent < pctDecrease then
      [{ alertId := "", studyId := ds.study.studyId, groupId := some g.groupId
         category := "postnatal", severity := .red, endpoint := "postnatal" }]
    else []
  else []

def checkMilestoneDelay (T : Thresholds) (ds : StudyDataset) (g : Group)
    (controlGroup : Group) : List Alert :=
  let groupPups := livePupsOf ds g.groupId
  let controlPups := livePupsOf ds controlGroup.groupId
  let milestones := jsSet (ds.pups.flatMap (fun p => p.milestones.map (·.milestone)))
  milestones.flatMap (fun milestone =>
    let groupDays := achievedDays groupPups milestone
    let controlDays := achievedDays controlPups milestone
    if 0 < groupDays.length ∧ 0 < controlDays.length then
      let delay := mean groupDays - mean controlDays
      if T.postnatal.milestoneDelayDays < delay then
        [{ alertId := "", studyId := ds.study.studyId, groupId := some g.groupId
           category := "postnatal"
           severity := if T.postnatal.milestoneDelayDays * 2 < delay then .red else .yellow
           endpoint := "postnatal" }]
      else []
    else [])

/-- The body of the loop of `evaluateAlerts` for one group: skipped entirely
when the group's id equals the control's, else all check functions in order. -/
def alertsForGroup (T : Thresholds) (ds : StudyDataset) (control : Group)
    (g : Group) : List Alert :=
  if g.groupId = control.groupId then []
  else
    let groupAnimals := ds.animals.filter (fun a => decide (a.groupId = g.groupId))
    let controlAnimals := ds.animals.filter (fun a => decide (a.groupId = control.groupId))
    let groupLitters := ds.litters.filter (fun l => decide (l.groupId = g.groupId))
    let controlLitters := ds.litters.filter (fun l => decide (l.groupId = control.groupId))
    checkMaternalBodyWeight T ds g groupAnimals ++
    checkMaternalFoodConsumption T ds g groupAnimals controlAnimals ++
    checkMaternalDeaths T ds g groupAnimals ++
    checkMaternalClinicalSigns T ds g groupAnimals ++
    checkResorptions T ds g groupLitters controlLitters ++
    checkFetalWeight T ds g groupLitters controlLitters ++
    checkMalformations T ds g groupLitters ++
    (if 0 < ds.pups.length then
      checkPupMortality T ds g ++
      checkPupWeightGain T ds g control ++
      checkMilestoneDelay T ds g control
    else [])

/-- Source `evaluateAlerts(dataset)`: the control group is `groups[0]`; when
the group list is empty the loop body never runs and the (undefined) control is
never dereferenced, so the result is `[]`.  `counter` is the value of the
module-level alert-id counter when the call starts. -/
def evaluateAlerts (T : Thresholds) (ds : StudyDataset) (counter : Nat) : List Alert :=
  match ds.groups with
  | [] => []
  | control :: _ => assignIds counter (ds.groups.flatMap (alertsForGroup T ds control))

/-- Source `deriveRiskBadge(alerts)`. -/
def deriveRiskBadge (alerts : List Alert) : AlertSeverity :=
  if alerts.any (fun a => decide (a.severity = .red)) then .red
  else if alerts.any (fun a => decide (a.severity = .yellow)) then .yellow
  else .green

-- ════════════════════════════════════════════════════════════════════════════
-- Theorems
-- ════════════════════════════════════════════════════════════════════════════

-- ── Shared concrete data ────────────────────────────────────────────────────

/-- A dataset with empty entity collections. -/
def emptyDataset : StudyDataset :=
  { study := { studyId := "S-EMPTY" }
    groups := [], animals := [], litters := [], fetuses := [], pups := [] }

def gControl : Group :=
  { groupId := "G1", studyId := "S1", name := "Control", doseLevel := 0
    doseUnits := "mg/kg/day", sex := "female", plannedDams := 10, actualDams := 10 }

def gHigh : Group :=
  { groupId := "G2", studyId := "S1", name := "High", doseLevel := 100
    doseUnits := "mg/kg/day", sex := "female", plannedDams := 10, actualDams := 10 }

/-- A two-group dataset with no entity data at all. -/
def dsTwoGroups : StudyDataset :=
  { study := { studyId := "S1" }
    groups := [gControl, gHigh], animals := [], litters := [], fetuses := [], pups := [] }

/-- A litter whose corpora-lutea and implantation counts are both zero. -/
def litZero : Litter :=
  { litterId := "L1", studyId := "S1", damAnimalId := "A1", groupId := "G2"
    implantations := 0, corporaLutea := 0, resorptionsEarly := 0, resorptionsLate := 0
    liveFetuses := 0, deadFetuses := 0, sexRatio := 0, litterWeight := 0
    meanFetalWeight := 0, postnatalPups := none, pupsSurvivingPND4 := none
    pupsSurvivingPND21 := none }

-- ── C6: zero-on-empty policy of the statistical primitives ──────────────────

/-- Claim C6.  The statistical primitives obey the zero-on-empty policy
exactly: `mean [] = 0`, `median [] = 0`, `quantile [] q = 0` for every `q`;
`sem` is `0` whenever the input has at most one element (equivalently its
radicand `semSq` is `0`, hence `√semSq = 0`); and the box-plot summary of an
empty value list is zero-filled, in particular its `min` and `max` are `0`.
All primitives are total Lean functions, so no case raises an error, and the
results are exact rationals, never NaN. -/
theorem stats_zero_on_empty :
    mean [] = 0 ∧ median [] = 0 ∧ (∀ q : ℚ, quantile [] q = 0) ∧
    (∀ xs : List ℚ, xs.length ≤ 1 →
      semSq xs = 0 ∧ Real.sqrt ((semSq xs : ℚ) : ℝ) = 0) ∧
    (∀ n i : String, toBoxData n i [] =
      { groupName := n, groupId := i, values := []
        mean := 0, median := 0, min := 0, max := 0, q1 := 0, q3 := 0 }) := by
  have hround : jsRound 0 = 0 := by
    unfold jsRound
    norm_num [Int.floor_eq_iff]
  refine ⟨rfl, rfl, fun q => rfl, fun xs h => ?_, fun n i => ?_⟩
  · have h0 : semSq xs = 0 := by unfold semSq; rw [if_pos h]
    refine ⟨h0, ?_⟩
    rw [h0]
    simp
  · unfold toBoxData
    simp only [List.min?_nil, List.max?_nil]
    rw [show mean [] = 0 from rfl, show median [] = 0 from rfl,
      show quantile [] (1 / 4) = 0 from rfl, show quantile [] (3 / 4) = 0 from rfl, hround]

/-- Witness for C6 at concrete inputs: a one-element list has `semSq = 0`
(hence `sem = 0`), and `quantile [] (1/2) = 0`. -/
theorem stats_zero_on_empty_witness :
    semSq [(5 : ℚ)] = 0 ∧ Real.sqrt ((semSq [(5 : ℚ)] : ℚ) : ℝ) = 0 ∧
      quantile [] (1 / 2) = 0 :=
  ⟨(stats_zero_on_empty.2.2.2.1 [(5 : ℚ)] (by decide)).1,
   (stats_zero_on_empty.2.2.2.1 [(5 : ℚ)] (by decide)).2,
   stats_zero_on_empty.2.2.1 (1 / 2)⟩

-- ── C7: zero-denominator guard of the implantation-loss metrics ─────────────

/-- Claim C7.  For every litter with `corporaLutea = 0` the per-litter
pre-implantation-loss value entering the box-plot summary is exactly `0`, and
for every litter with `implantations = 0` the post-implantation-loss value is
exactly `0` (exact rationals — never NaN or Infinity); and `computeLitterData`
applies this guard per litter before `toBoxData` summarises the values. -/
theorem litter_loss_guard :
    (∀ l : Litter, l.corporaLutea = 0 → preImpValue l = 0) ∧
    (∀ l : Litter, l.implantations = 0 → postImpValue l = 0) ∧
    (∀ ds : StudyDataset, (computeLitterData ds).preImplantationLoss =
      ds.groups.map (fun g =>
        toBoxData g.name g.groupId ((groupLittersOf ds g).map preImpValue))) ∧
    (∀ ds : StudyDataset, (computeLitterData ds).postImplantationLoss =
      ds.groups.map (fun g =>
        toBoxData g.name g.groupId ((groupLittersOf ds g).map postImpValue))) := by
  refine ⟨fun l h => ?_, fun l h => ?_, fun ds => rfl, fun ds => rfl⟩
  · unfold preImpValue
    rw [h]
    norm_num
  · unfold postImpValue
    rw [h]
    norm_num

/-- Witness for C7: the all-zero litter gets loss values `0`. -/
theorem litter_loss_guard_witness :
    preImpValue litZero = 0 ∧ postImpValue litZero = 0 :=
  ⟨litter_loss_guard.1 litZero rfl, litter_loss_guard.2.1 litZero rfl⟩

-- ── C9: the risk badge is the total order red > yellow > green ──────────────

/-- Claim C9.  `deriveRiskBadge` returns `red` iff some alert is `red` (so one
`red` forces `red` regardless of how many `yellow`s are present); else `yellow`
iff some alert is `yellow`; else `green` — and `deriveRiskBadge [] = green`. -/
theorem deriveRiskBadge_total_order :
    deriveRiskBadge [] = .green ∧
    ∀ alerts : List Alert,
      (deriveRiskBadge alerts = .red ↔ ∃ a ∈ alerts, a.severity = .red) ∧
      (deriveRiskBadge alerts = .yellow ↔
        (¬ (∃ a ∈ alerts, a.severity = .red)) ∧ ∃ a ∈ alerts, a.severity = .yellow) ∧
      (deriveRiskBadge alerts = .green ↔
        (¬ (∃ a ∈ alerts, a.severity = .red)) ∧ ¬ (∃ a ∈ alerts, a.severity = .yellow)) := by
  refine ⟨rfl, fun alerts => ?_⟩
  unfold deriveRiskBadge
  by_cases hr : ∃ a ∈ alerts, a.severity = AlertSeverity.red
  · have h1 : alerts.any (fun a => decide (a.severity = .red)) = true := by
      simpa [List.any_eq_true] using hr
    simp [h1, hr]
  · have h1 : alerts.any (fun a => decide (a.severity = .red)) = false := by
      simpa [List.any_eq_true] using hr
    by_cases hy : ∃ a ∈ alerts, a.severity = AlertSeverity.yellow
    · have hy1 : alerts.any (fun a => decide (a.severity = .yellow)) = true := by
        simpa [List.any_eq_true] using hy
      simp [h1, hy1, hr, hy]
    · have hy1 : alerts.any (fun a => decide (a.severity = .yellow)) = false := by
        simpa [List.any_eq_true] using hy
      simp [h1, hy1, hr, hy]

def alertYellow : Alert :=
  { alertId := "ALT-0001", studyId := "S1", groupId := some "G2"
    category := "maternal", severity := .yellow, endpoint := "maternal" }

def alertRed : Alert :=
  { alertId := "ALT-0002", studyId := "S1", groupId := some "G2"
    category := "developmental", severity := .red, endpoint := "fetal" }

/-- Witness for C9: a `red` alert forces `red` even next to `yellow`s, a lone
`yellow` gives `yellow`, and the empty list gives `green`. -/
theorem deriveRiskBadge_total_order_witness :
    deriveRiskBadge [alertYellow, alertRed, alertYellow] = .red ∧
    deriveRiskBadge [alertYellow] = .yellow ∧
    deriveRiskBadge [] = .green :=
  ⟨((deriveRiskBadge_total_order.2 [alertYellow, alertRed, alertYellow]).1).mpr
      ⟨alertRed, by decide, rfl⟩,
   ((deriveRiskBadge_total_order.2 [alertYellow]).2.1).mpr (by decide),
   deriveRiskBadge_total_order.1⟩

-- ── C10: the clinical-signs check on an animal-less group ───────────────────

/-- Claim C10.  For every dataset, thresholds and group whose animal list is
empty, the clinical-signs incidence check emits no alert: the percentage
`withSigns / groupAnimals.length × 100` is the undefined `0/0` (NaN, modelled
`none`), which never satisfies the strict `>` threshold comparison, so the
check silently produces nothing rather than an alert or an error. -/
theorem clinicalSigns_empty_group_no_alert (T : Thresholds) (ds : StudyDataset)
    (g : Group) (h : ds.animals.filter (fun a => decide (a.groupId = g.groupId)) = []) :
    checkMaternalClinicalSigns T ds g
      (ds.animals.filter (fun a => decide (a.groupId = g.groupId))) = [] := by
  rw [h]
  unfold checkMaternalClinicalSigns optGt
  simp

/-- Witness for C10: the animal-less high-dose group of `dsTwoGroups` gets no
clinical-signs alert. -/
theorem clinicalSigns_empty_group_no_alert_witness :
    checkMaternalClinicalSigns THRESHOLDS dsTwoGroups gHigh
      (dsTwoGroups.animals.filter (fun a => decide (a.groupId = gHigh.groupId))) = [] :=
  clinicalSigns_empty_group_no_alert THRESHOLDS dsTwoGroups gHigh rfl

-- ── C4: totality on the empty dataset ───────────────────────────────────────

/-- Claim C4.  Every core operation is a total Lean function (the embedding has
no partial definitions), and on the dataset whose entity collections are all
empty each of them returns normally with the empty / zero-filled structure —
for any thresholds and any alert-counter state. -/
theorem engine_total_on_empty_dataset :
    (∀ (T : Thresholds) (c : Nat), evaluateAlerts T emptyDataset c = []) ∧
    computeBodyWeightByGroup emptyDataset = [] ∧
    computeBodyWeightChangeByGroup emptyDataset = [] ∧
    computeFoodConsumptionByGroup emptyDataset = [] ∧
    computePregnancyOutcomes emptyDataset = [] ∧
    computeClinicalSignsIncidence emptyDataset = [] ∧
    computeMaternalData emptyDataset =
      { bodyWeight := [], bodyWeightChange := [], foodConsumption := []
        clinicalSignsIncidence := [] } ∧
    computeLitterData emptyDataset =
      { implantations := [], earlyResorptions := [], lateResorptions := []
        liveFetuses := [], preImplantationLoss := [], postImplantationLoss := []
        fetalWeights := [], litterSummaryTable := [] } ∧
    computeFetalFindingsData emptyDataset = { incidenceTable := [], categories := [] } ∧
    computePostnatalData emptyDataset =
      { pupWeightByGroup := [], pupWeightByGroupAndSex := []
        milestoneIncidence := [], neurobehaviorByGroup := [] } :=
  ⟨fun _ _ => rfl, rfl, rfl, rfl, rfl, rfl, rfl, rfl, rfl, rfl⟩

-- ── C2: time-series day keys and skip-missing aggregation ───────────────────

theorem length_filterMap_isSome (f : α → Option β) (l : List α) :
    (l.filterMap f).length = (l.filter (fun a => (f a).isSome)).length := by
  induction l with
  | nil => rfl
  | cons x xs ih =>
    cases hx : f x <;> simp [List.filterMap_cons, List.filter_cons, hx, ih]

theorem find?_isSome_eq_any (p : α → Bool) (l : List α) :
    (l.find? p).isSome = l.any p := by
  rw [Bool.eq_iff_iff, List.find?_isSome, List.any_eq_true]

/-- The element count of the per-day value list is the number of animals with
an observation at that day: missing observations are skipped, not zero-filled. -/
theorem valsAt_length (animals : List Animal) (recsOf : Animal → List (ℚ × ℚ)) (d : ℚ) :
    (valsAt animals recsOf d).length =
      (animals.filter (fun a => (recsOf a).any (fun r => decide (r.1 = d)))).length := by
  unfold valsAt
  rw [length_filterMap_isSome]
  have hfun : (fun a => (((recsOf a).find? (fun r => decide (r.1 = d))).map Prod.snd).isSome) =
      (fun a => (recsOf a).any (fun r => decide (r.1 = d))) := by
    funext a
    rw [Option.isSome_map']
    exact find?_isSome_eq_any _ _
  rw [hfun]

/-- The day keys of a time series, in output order. -/
def seriesDaysOf (animals : List Animal) (recsOf : Animal → List (ℚ × ℚ)) : List ℚ :=
  (timeSeriesData animals recsOf).map (·.day)

theorem seriesDaysOf_eq (animals : List Animal) (recsOf : Animal → List (ℚ × ℚ)) :
    seriesDaysOf animals recsOf =
      List.insertionSort (· ≤ ·)
        (jsSet (animals.flatMap (fun a => (recsOf a).map Prod.fst))) := by
  unfold seriesDaysOf timeSeriesData
  rw [List.map_map]
  exact List.map_id _

/-- Claim C2.  The three animal time-series aggregations map each group to
`timeSeriesData` of its animals, and for every animal list and record
extractor: the day keys are sorted ascending, contain no duplicates, and are
exactly the union of the days observed across the animals; and every output
point carries the (rounded) mean and the `sem` radicand of the value list
`valsAt`, which draws one value from each animal that has an observation at
that day and skips the rest (its length is the count of animals observed at
that day, not the group size). -/
theorem timeSeries_sorted_union_no_imputation :
    (∀ ds : StudyDataset, computeBodyWeightByGroup ds = ds.groups.map (fun g =>
      { groupName := g.name, groupId := g.groupId, doseLevel := g.doseLevel
        data := timeSeriesData (groupAnimalsOf ds g) bwRecsOf })) ∧
    (∀ ds : StudyDataset, computeBodyWeightChangeByGroup ds = ds.groups.map (fun g =>
      { groupName := g.name, groupId := g.groupId, doseLevel := g.doseLevel
        data := timeSeriesData (groupAnimalsOf ds g) bwChangeRecsOf })) ∧
    (∀ ds : StudyDataset, computeFoodConsumptionByGroup ds = ds.groups.map (fun g =>
      { groupName := g.name, groupId := g.groupId, doseLevel := g.doseLevel
        data := timeSeriesData (groupAnimalsOf ds g) fcRecsOf })) ∧
    (∀ (animals : List Animal) (recsOf : Animal → List (ℚ × ℚ)),
      List.Sorted (· ≤ ·) (seriesDaysOf animals recsOf) ∧
      (seriesDaysOf animals recsOf).Nodup ∧
      (∀ d : ℚ, d ∈ seriesDaysOf animals recsOf ↔
        ∃ a ∈ animals, ∃ r ∈ recsOf a, r.1 = d) ∧
      (∀ p ∈ timeSeriesData animals recsOf,
        p.mean = jsRound (mean (valsAt animals recsOf p.day)) ∧
        p.semSq = semSq (valsAt animals recsOf p.day) ∧
        (valsAt animals recsOf p.day).length =
          (animals.filter (fun a => (recsOf a).any (fun r => decide (r.1 = p.day)))).length)) := by
  refine ⟨fun ds => rfl, fun ds => rfl, fun ds => rfl, fun animals recsOf =>
    ⟨?_, ?_, ?_, ?_⟩⟩
  · rw [seriesDaysOf_eq]
    exact List.sorted_insertionSort _ _
  · rw [seriesDaysOf_eq]
    exact ((List.perm_insertionSort _ _).nodup_iff).mpr (nodup_jsSet _)
  · intro d
    rw [seriesDaysOf_eq, (List.perm_insertionSort _ _).mem_iff, mem_jsSet,
      List.mem_flatMap]
    simp [List.mem_map]
  · intro p hp
    unfold timeSeriesData at hp
    rw [List.mem_map] at hp
    obtain ⟨d, _, rfl⟩ := hp
    exact ⟨rfl, rfl, valsAt_length _ _ _⟩

def aUnion1 : Animal :=
  { animalId := "A1", studyId := "S1", groupId := "G2", sex := "female"
    litterId := none, matingPairId := none, pregnancyStatus := "pregnant"
    maternalDeathFlag := false, maternalTerminationReason := none
    bodyWeights :=
      [{ day := 0, dayType := "GD", weight := 50, changeFromBaseline := 0 },
       { day := 6, dayType := "GD", weight := 52, changeFromBaseline := 4 },
       { day := 12, dayType := "GD", weight := 54, changeFromBaseline := 8 }]
    foodConsumption := [], clinicalObservations := [] }

def aUnion2 : Animal :=
  { animalId := "A2", studyId := "S1", groupId := "G2", sex := "female"
    litterId := none, matingPairId := none, pregnancyStatus := "pregnant"
    maternalDeathFlag := false, maternalTerminationReason := none
    bodyWeights :=
      [{ day := 6, dayType := "GD", weight := 51, changeFromBaseline := 0 },
       { day := 12, dayType := "GD", weight := 53, changeFromBaseline := 4 },
       { day := 18, dayType := "GD", weight := 55, changeFromBaseline := 8 }]
    foodConsumption := [], clinicalObservations := [] }

/-- Witness for C2 at the example of the spec — animals observed on days
`{0,6,12}` and `{6,12,18}`: the key list is the sorted union `[0,6,12,18]`,
day `0` is a key because animal `A1` observes it, and the day-0 value list
draws from that one animal only. -/
theorem timeSeries_sorted_union_no_imputation_witness :
    seriesDaysOf [aUnion1, aUnion2] bwRecsOf = [0, 6, 12, 18] ∧
    (0 : ℚ) ∈ seriesDaysOf [aUnion1, aUnion2] bwRecsOf ∧
    valsAt [aUnion1, aUnion2] bwRecsOf 0 = [50] :=
  ⟨by decide,
   (timeSeries_sorted_union_no_imputation.2.2.2 [aUnion1, aUnion2] bwRecsOf).2.2.1 0
     |>.mpr ⟨aUnion1, by decide, (0, 50), by decide, rfl⟩,
   by decide⟩

-- ── C3: incidence-row ordering ──────────────────────────────────────────────

/-- The keys of the finding `Map` are the finding terms in first-occurrence
(insertion) order. -/
theorem map_fst_foldl_insertFinding (ffs : List FetalFinding)
    (m : List (String × FindingMeta)) :
    (ffs.foldl insertFinding m).map Prod.fst =
      (ffs.map (·.findingTerm)).foldl setInsert (m.map Prod.fst) := by
  induction ffs generalizing m with
  | nil => rfl
  | cons x xs ih =>
    rw [List.map_cons, List.foldl_cons, List.foldl_cons, ih]
    congr 1
    unfold insertFinding setInsert
    split <;> simp_all [List.map_append]

theorem findingMapOf_keys (fetuses : List Fetus) :
    (findingMapOf fetuses).map Prod.fst =
      jsSet ((fetuses.flatMap (·.findings)).map (·.findingTerm)) := by
  unfold findingMapOf jsSet
  rw [map_fst_foldl_insertFinding]
  rfl

/-- The finding terms of the fetal incidence table, in row order. -/
def fetalRowTerms (ds : StudyDataset) : List String :=
  (computeFetalFindingsData ds).incidenceTable.map (·.findingTerm)

theorem fetalRowTerms_eq (ds : StudyDataset) :
    fetalRowTerms ds = jsSet ((ds.fetuses.flatMap (·.findings)).map (·.findingTerm)) := by
  unfold fetalRowTerms computeFetalFindingsData
  rw [List.map_map, ← findingMapOf_keys]
  rfl

/-- The clinical finding terms of the clinical-signs incidence table, in row
order. -/
def clinicalRowTerms (ds : StudyDataset) : List String :=
  (computeClinicalSignsIncidence ds).map (·.findingTerm)

theorem clinicalRowTerms_eq (ds : StudyDataset) :
    clinicalRowTerms ds =
      List.insertionSort strLeP
        (jsSet (ds.animals.flatMap (fun a => a.clinicalObservations.map (·.findingTerm)))) := by
  unfold clinicalRowTerms computeClinicalSignsIncidence
  rw [List.map_map]
  exact List.map_id _

/-- The milestone names of the milestone incidence table, in row order. -/
def milestoneRowNames (ds : StudyDataset) : List String :=
  (computePostnatalData ds).milestoneIncidence.map (·.milestone)

theorem milestoneRowNames_eq (ds : StudyDataset) :
    milestoneRowNames ds =
      if ds.pups.length = 0 then []
      else jsSet (ds.pups.flatMap (fun p => p.milestones.map (·.milestone))) := by
  unfold milestoneRowNames computePostnatalData
  split
  · rfl
  · rw [List.map_map]
    exact List.map_id _

/-- Claim C3 (amended).  Only the clinical-signs incidence rows are sorted
alphabetically by finding term; the fetal-findings incidence rows and the
milestone incidence rows appear in first-encountered (insertion) order of their
term/name, not sorted; the fetal *exam-type category list* is what is sorted in
that computation. -/
theorem incidence_row_order :
    (∀ ds : StudyDataset,
      List.Sorted strLeP (clinicalRowTerms ds) ∧
      clinicalRowTerms ds =
        List.insertionSort strLeP
          (jsSet (ds.animals.flatMap (fun a => a.clinicalObservations.map (·.findingTerm))))) ∧
    (∀ ds : StudyDataset,
      fetalRowTerms ds = jsSet ((ds.fetuses.flatMap (·.findings)).map (·.findingTerm))) ∧
    (∀ ds : StudyDataset, ds.pups.length ≠ 0 →
      milestoneRowNames ds =
        jsSet (ds.pups.flatMap (fun p => p.milestones.map (·.milestone)))) ∧
    (∀ ds : StudyDataset,
      List.Sorted strLeP (computeFetalFindingsData ds).categories) := by
  refine ⟨fun ds => ⟨?_, clinicalRowTerms_eq ds⟩, fetalRowTerms_eq,
    fun ds h => ?_, fun ds => ?_⟩
  · rw [clinicalRowTerms_eq]
    exact List.sorted_insertionSort _ _
  · rw [milestoneRowNames_eq, if_neg h]
  · exact List.sorted_insertionSort _ _

def ffTermB : FetalFinding :=
  { findingCode := "F002", findingTerm := "b", classification := "malformation"
    examType := "external", laterality := "N/A", location := "head" }

def ffTermA : FetalFinding :=
  { findingCode := "F001", findingTerm := "a", classification := "variation"
    examType := "skeletal", laterality := "N/A", location := "rib" }

/-- A fetus whose findings carry the terms `"b"` then `"a"`, in that order. -/
def fetusBA : Fetus :=
  { fetusId := "F1", litterId := "L1", studyId := "S1", groupId := "G2"
    sex := "male", weight := 5, viabilityStatus := "live", examType := "external"
    findings := [ffTermB, ffTermA], gestationalDayOfObservation := 20 }

def dsFetalCx : StudyDataset :=
  { study := { studyId := "S1" }
    groups := [gControl, gHigh], animals := [], litters := [], fetuses := [fetusBA]
    pups := [] }

/-- Counterexample to C3 as stated: on `dsFetalCx` the fetal-findings incidence
rows carry the terms `["b", "a"]` — first-encountered order, not sorted
alphabetically. -/
theorem fetal_rows_not_sorted_cx :
    fetalRowTerms dsFetalCx = ["b", "a"] ∧
    ¬ List.Sorted strLeP (fetalRowTerms dsFetalCx) := by
  have h : fetalRowTerms dsFetalCx = ["b", "a"] := by
    rw [fetalRowTerms_eq]
    decide
  refine ⟨h, ?_⟩
  rw [h]
  intro hs
  have hba := (List.pairwise_cons.mp hs).1 "a" (by decide)
  revert hba
  decide

/-- A pup for the milestone part of the C3 witness. -/
def pupM1 : Pup :=
  { pupId := "P1", litterId := "L1", studyId := "S1", groupId := "G2"
    sex := "male", viabilityStatus := "live", deathDay := none
    bodyWeights := []
    milestones :=
      [{ milestone := "pinna detachment", dayAchieved := some 3 },
       { milestone := "eye opening", dayAchieved := some 14 }]
    neurobehaviorScore := none }

def dsMilestoneW : StudyDataset :=
  { study := { studyId := "S1" }
    groups := [gControl, gHigh], animals := [], litters := [], fetuses := []
    pups := [pupM1] }

/-- Witness for C3 (amended): on a dataset with pups the milestone rows keep
first-encountered order. -/
theorem incidence_row_order_witness :
    milestoneRowNames dsMilestoneW = ["pinna detachment", "eye opening"] := by
  rw [incidence_row_order.2.2.1 dsMilestoneW (by decide)]
  decide

-- ── C8: milestone-delay control SD ──────────────────────────────────────────

theorem controlVar_nonneg (cd : List ℚ) (h : 1 < cd.length) : 0 ≤ controlVar cd := by
  unfold controlVar
  apply div_nonneg
  · apply List.sum_nonneg
    intro x hx
    rw [List.mem_map] at hx
    obtain ⟨v, _, rfl⟩ := hx
    positivity
  · have h2 : (2 : ℚ) ≤ (cd.length : ℚ) := by exact_mod_cast h
    linarith

theorem isDelayed_iff_delayedSpec (cd : List ℚ) (d : ℚ) :
    isDelayed cd d = true ↔ delayedSpec cd d := by
  unfold isDelayed delayedSpec
  by_cases h : 1 < cd.length
  · rw [if_pos h, if_pos h, Bool.and_eq_true, decide_eq_true_eq, decide_eq_true_eq]
    have key : Real.sqrt ((controlVar cd : ℚ) : ℝ) <
        ((d : ℚ) : ℝ) - ((mean cd : ℚ) : ℝ) ↔
        (0 < d - mean cd ∧ controlVar cd < (d - mean cd) ^ 2) := by
      constructor
      · intro hs
        have hpos : (0 : ℝ) < ((d : ℚ) : ℝ) - ((mean cd : ℚ) : ℝ) :=
          lt_of_le_of_lt (Real.sqrt_nonneg _) hs
        have h1 : 0 < d - mean cd := by
          have hc : ((0 : ℚ) : ℝ) < ((d - mean cd : ℚ) : ℝ) := by push_cast; linarith
          exact_mod_cast hc
        have h2 := (Real.sqrt_lt' hpos).mp hs
        refine ⟨h1, ?_⟩
        have hc : ((controlVar cd : ℚ) : ℝ) < (((d - mean cd) ^ 2 : ℚ) : ℝ) := by
          push_cast
          linarith [h2]
        exact_mod_cast hc
      · rintro ⟨h1, h2⟩
        have hpos : (0 : ℝ) < ((d : ℚ) : ℝ) - ((mean cd : ℚ) : ℝ) := by
          have hc : ((0 : ℚ) : ℝ) < ((d - mean cd : ℚ) : ℝ) := by exact_mod_cast h1
          push_cast at hc
          linarith
        apply (Real.sqrt_lt' hpos).mpr
        have hc : ((controlVar cd : ℚ) : ℝ) < (((d - mean cd) ^ 2 : ℚ) : ℝ) := by
          exact_mod_cast h2
        push_cast at hc
        linarith [hc]
    constructor
    · rintro ⟨h1, h2⟩
      have hk := key.mpr ⟨h1, h2⟩
      linarith
    · intro hlt
      exact key.mp (by linarith)
  · rw [if_neg h, if_neg h, decide_eq_true_eq]
    constructor
    · intro hlt
      have hc : ((mean cd + 1 : ℚ) : ℝ) < ((d : ℚ) : ℝ) := by exact_mod_cast hlt
      push_cast at hc
      linarith
    · intro hlt
      have hc : ((mean cd + 1 : ℚ) : ℝ) < ((d : ℚ) : ℝ) := by push_cast; linarith
      exact_mod_cast hc

/-- Claim C8.  The delayed test the milestone incidence uses is exactly
`day > controlMean + controlSD` with `controlSD = √(sample variance)`; the
control SD is `1` whenever the control list has at most one element; for longer
lists its square is the Bessel-corrected variance (`n − 1` denominator); and
`percentDelayed` of a milestone group entry counts `isDelayed` over the group's
achieved days against the control days of the baseline group's
(`groups[0]`) live pups. -/
theorem milestone_delay_control_sd :
    (∀ (cd : List ℚ) (d : ℚ), isDelayed cd d = true ↔ delayedSpec cd d) ∧
    (∀ cd : List ℚ, cd.length ≤ 1 →
      (if 1 < cd.length then Real.sqrt ((controlVar cd : ℚ) : ℝ) else 1) = 1) ∧
    (∀ cd : List ℚ, 1 < cd.length →
      Real.sqrt ((controlVar cd : ℚ) : ℝ) ^ 2 = ((controlVar cd : ℚ) : ℝ) ∧
      controlVar cd = (cd.map (fun v => (v - mean cd) ^ 2)).sum / ((cd.length : ℚ) - 1)) ∧
    (∀ (ds : StudyDataset) (m : String) (g : Group),
      (milestoneEntry ds m g).percentDelayed =
        (if 0 < (achievedDays (livePupsOf ds g.groupId) m).length then
          jsRound
            ((((achievedDays (livePupsOf ds g.groupId) m).filter
                (fun d => isDelayed
                  (achievedDays (livePupsOf ds (controlGroupIdOf ds)) m) d)).length : ℚ) /
              ((achievedDays (livePupsOf ds g.groupId) m).length : ℚ) * 100)
        else 0)) := by
  refine ⟨isDelayed_iff_delayedSpec, fun cd h => ?_, fun cd h => ⟨?_, rfl⟩,
    fun ds m g => rfl⟩
  · rw [if_neg (by omega : ¬ 1 < cd.length)]
  · exact Real.sq_sqrt (by exact_mod_cast controlVar_nonneg cd h)

/-- Witness for C8: a one-observation control list gets SD `1`, and a pup
achieving on day 5 against control `[3]` is classified delayed (5 > 3 + 1). -/
theorem milestone_delay_control_sd_witness :
    (if 1 < ([(3 : ℚ)]).length then Real.sqrt ((controlVar [(3 : ℚ)] : ℚ) : ℝ) else 1) = 1 ∧
    (isDelayed [(3 : ℚ)] 5 = true ↔ delayedSpec [(3 : ℚ)] 5) ∧
    isDelayed [(3 : ℚ)] 5 = true :=
  ⟨milestone_delay_control_sd.2.1 [(3 : ℚ)] (by decide),
   milestone_delay_control_sd.1 [(3 : ℚ)] 5,
   by norm_num [isDelayed, mean]⟩

-- ── C5: maternal-death check with zero deaths ───────────────────────────────

/-- Claim C5 (amended).  For every threshold configuration whose `deathCount`
minimum is positive — the shipped configuration sets it to `1` — a group whose
animal list contains zero death-flagged animals produces no maternal-death
alert (`checkMaternalDeaths`, the only rule that emits maternal-death alerts in
`evaluateAlerts`, returns `[]`). -/
theorem no_deaths_no_death_alert (T : Thresholds) (ds : StudyDataset) (g : Group)
    (ga : List Animal) (hT : 0 < T.maternal.deathCount)
    (h : (ga.filter (·.maternalDeathFlag)).length = 0) :
    checkMaternalDeaths T ds g ga = [] := by
  unfold checkMaternalDeaths
  rw [h]
  rw [if_neg]
  push_cast
  linarith

/-- An animal of the high-dose group that is not death-flagged. -/
def aNoDeath : Animal :=
  { animalId := "A1", studyId := "S1", groupId := "G2", sex := "female"
    litterId := none, matingPairId := none, pregnancyStatus := "pregnant"
    maternalDeathFlag := false, maternalTerminationReason := none
    bodyWeights := [], foodConsumption := [], clinicalObservations := [] }

/-- Witness for C5 (amended): with the shipped thresholds, a group holding one
non-flagged animal gets no maternal-death alert. -/
theorem no_deaths_no_death_alert_witness :
    checkMaternalDeaths THRESHOLDS dsTwoGroups gHigh [aNoDeath] = [] :=
  no_deaths_no_death_alert THRESHOLDS dsTwoGroups gHigh [aNoDeath]
    (by norm_num [THRESHOLDS]) (by decide)

/-- The shipped thresholds with the maternal `deathCount` minimum set to `0` —
a legal value of the configuration surface. -/
def thresholdsZeroDeaths : Thresholds :=
  { THRESHOLDS with
    maternal := { THRESHOLDS.maternal with deathCount := 0 } }

/-- Counterexample to C5 as stated (over *every* threshold configuration):
with `deathCount = 0` the comparison `deaths ≥ deathCount` holds at zero
deaths, so a group with zero death-flagged animals *does* receive a
maternal-death alert (`0 maternal death(s)`, severity yellow). -/
theorem zero_death_threshold_cx :
    (([aNoDeath].filter (·.maternalDeathFlag)).length = 0) ∧
    checkMaternalDeaths thresholdsZeroDeaths dsTwoGroups gHigh [aNoDeath] =
      [{ alertId := "", studyId := "S1", groupId := some "G2"
         category := "maternal", severity := .yellow, endpoint := "maternal" }] := by
  refine ⟨by decide, ?_⟩
  unfold checkMaternalDeaths
  rw [if_pos]
  · have hlen : (List.filter (fun x => x.maternalDeathFlag) [aNoDeath]).length = 0 := by
      decide
    rw [hlen]
    norm_num [dsTwoGroups, gHigh]
  · norm_num [thresholdsZeroDeaths, THRESHOLDS]

-- ── C1: alerts never target the control group ───────────────────────────────

theorem groupId_of_mem_checkMaternalBodyWeight {T ds g ga a}
    (h : a ∈ checkMaternalBodyWeight T ds g ga) : a.groupId = some g.groupId := by
  simp only [checkMaternalBodyWeight] at h
  rcases List.mem_append.mp h with h | h
  · split at h
    · simp only [List.mem_singleton] at h
      subst h
      rfl
    · simp at h
  · split at h
    · split at h
      · simp only [List.mem_singleton] at h
        subst h
        rfl
      · simp at h
    · simp at h

theorem groupId_of_mem_checkMaternalFoodConsumption {T ds g ga ca a}
    (h : a ∈ checkMaternalFoodConsumption T ds g ga ca) : a.groupId = some g.groupId := by
  simp only [checkMaternalFoodConsumption] at h
  split at h
  · split at h
    · simp only [List.mem_singleton] at h
      subst h
      rfl
    · split at h
      · simp only [List.mem_singleton] at h
        subst h
        rfl
      · simp at h
  · simp at h

theorem groupId_of_mem_checkMaternalDeaths {T ds g ga a}
    (h : a ∈ checkMaternalDeaths T ds g ga) : a.groupId = some g.groupId := by
  simp only [checkMaternalDeaths] at h
  split at h
  · simp only [List.mem_singleton] at h
    subst h
    rfl
  · simp at h

theorem groupId_of_mem_checkMaternalClinicalSigns {T ds g ga a}
    (h : a ∈ checkMaternalClinicalSigns T ds g ga) : a.groupId = some g.groupId := by
  simp only [checkMaternalClinicalSigns] at h
  repeat' split at h
  all_goals try simp only [List.mem_singleton, List.not_mem_nil] at h
  all_goals rcases h with ⟨-, rfl⟩ ; rfl

theorem groupId_of_mem_checkResorptions {T ds g gl cl a}
    (h : a ∈ checkResorptions T ds g gl cl) : a.groupId = some g.groupId := by
  simp only [checkResorptions] at h
  rcases List.mem_append.mp h with h | h <;>
    · split at h
      · simp only [List.mem_singleton] at h
        subst h
        rfl
      · simp at h

theorem groupId_of_mem_checkFetalWeight {T ds g gl cl a}
    (h : a ∈ checkFetalWeight T ds g gl cl) : a.groupId = some g.groupId := by
  simp only [checkFetalWeight] at h
  split at h
  · split at h
    · simp only [List.mem_singleton] at h
      subst h
      rfl
    · split at h
      · simp only [List.mem_singleton] at h
        subst h
        rfl
      · simp at h
  · simp at h

theorem groupId_of_mem_checkMalformations {T ds g gl a}
    (h : a ∈ checkMalformations T ds g gl) : a.groupId = some g.groupId := by
  simp only [checkMalformations] at h
  repeat' split at h
  all_goals try simp only [List.mem_singleton, List.not_mem_nil] at h
  all_goals rcases h with ⟨-, rfl⟩ ; rfl

theorem groupId_of_mem_checkPupMortality {T ds g a}
    (h : a ∈ checkPupMortality T ds g) : a.groupId = some g.groupId := by
  simp only [checkPupMortality] at h
  repeat' split at h
  all_goals try simp only [List.mem_singleton, List.not_mem_nil] at h
  all_goals rcases h with ⟨-, rfl⟩ ; rfl

theorem groupId_of_mem_checkPupWeightGain {T ds g cg a}
    (h : a ∈ checkPupWeightGain T ds g cg) : a.groupId = some g.groupId := by
  simp only [checkPupWeightGain] at h
  split at h
  · split at h
    · simp only [List.mem_singleton] at h
      subst h
      rfl
    · simp at h
  · simp at h

theorem groupId_of_mem_checkMilestoneDelay {T ds g cg a}
    (h : a ∈ checkMilestoneDelay T ds g cg) : a.groupId = some g.groupId := by
  simp only [checkMilestoneDelay] at h
  rw [List.mem_flatMap] at h
  obtain ⟨m, _, h⟩ := h
  split at h
  · split at h
    · simp only [List.mem_singleton] at h
      subst h
      rfl
    · simp at h
  · simp at h

/-- Every alert collected for a group carries the id of that group, and the
loop body is entered only for groups whose id differs from the control's. -/
theorem mem_alertsForGroup {T ds control g a}
    (h : a ∈ alertsForGroup T ds control g) :
    g.groupId ≠ control.groupId ∧ a.groupId = some g.groupId := by
  unfold alertsForGroup at h
  split at h
  · simp at h
  · rename_i hne
    refine ⟨hne, ?_⟩
    simp only [List.mem_append] at h
    rcases h with ((((((h | h) | h) | h) | h) | h) | h) | h
    · exact groupId_of_mem_checkMaternalBodyWeight h
    · exact groupId_of_mem_checkMaternalFoodConsumption h
    · exact groupId_of_mem_checkMaternalDeaths h
    · exact groupId_of_mem_checkMaternalClinicalSigns h
    · exact groupId_of_mem_checkResorptions h
    · exact groupId_of_mem_checkFetalWeight h
    · exact groupId_of_mem_checkMalformations h
    · split at h
      · simp only [List.mem_append] at h
        rcases h with (h | h) | h
        · exact groupId_of_mem_checkPupMortality h
        · exact groupId_of_mem_checkPupWeightGain h
        · exact groupId_of_mem_checkMilestoneDelay h
      · simp at h

/-- Assigning ids touches only the `alertId` field. -/
theorem assignIds_map_groupId (c : Nat) (l : List Alert) :
    (assignIds c l).map (·.groupId) = l.map (·.groupId) := by
  induction l generalizing c with
  | nil => rfl
  | cons x xs ih => simp [assignIds, ih]

/-- Claim C1.  For every thresholds, dataset with a nonempty group list (whose
head is the control group) and group ids unique within the study, every alert
returned by `evaluateAlerts` carries the group id of one of the groups of the
dataset and that id is not the control's: the baseline group `groups[0]` never
receives an alert. -/
theorem evaluateAlerts_never_targets_control (T : Thresholds) (ds : StudyDataset)
    (counter : Nat) (control : Group) (hc : ds.groups.head? = some control)
    (_hnd : (ds.groups.map (·.groupId)).Nodup)
    (a : Alert) (ha : a ∈ evaluateAlerts T ds counter) :
    a.groupId ∈ ds.groups.map (fun g => some g.groupId) ∧
    a.groupId ≠ some control.groupId := by
  obtain ⟨rest, hg⟩ : ∃ rest, ds.groups = control :: rest := by
    cases hgl : ds.groups with
    | nil => rw [hgl] at hc; simp at hc
    | cons c r =>
      rw [hgl] at hc
      simp only [List.head?_cons, Option.some_inj] at hc
      exact ⟨r, by rw [hc]⟩
  unfold evaluateAlerts at ha
  rw [hg] at ha
  simp only [] at ha
  have ha2 : a.groupId ∈ (assignIds counter
      ((control :: rest).flatMap (alertsForGroup T ds control))).map (·.groupId) :=
    List.mem_map_of_mem _ ha
  rw [assignIds_map_groupId, List.mem_map] at ha2
  obtain ⟨b, hb, hab⟩ := ha2
  rw [List.mem_flatMap] at hb
  obtain ⟨grp, hgrp, hbg⟩ := hb
  obtain ⟨hne, hid⟩ := mem_alertsForGroup hbg
  constructor
  · rw [hg, List.mem_map]
    exact ⟨grp, hgrp, by rw [← hab, hid]⟩
  · rw [← hab, hid]
    intro hcontra
    exact hne (Option.some_inj.mp hcontra)

/-- An animal of the high-dose group flagged as a maternal death, with no
other data. -/
def aDeath : Animal :=
  { animalId := "A1", studyId := "S1", groupId := "G2", sex := "female"
    litterId := none, matingPairId := none, pregnancyStatus := "pregnant"
    maternalDeathFlag := true, maternalTerminationReason := none
    bodyWeights := [], foodConsumption := [], clinicalObservations := [] }

def dsDeath : StudyDataset :=
  { study := { studyId := "S1" }
    groups := [gControl, gHigh], animals := [aDeath], litters := [], fetuses := []
    pups := [] }

/-- The single alert `evaluateAlerts` produces on `dsDeath` (one maternal
death in the high-dose group, threshold minimum 1). -/
def alertDeathG2 : Alert :=
  { alertId := "ALT-0001", studyId := "S1", groupId := some "G2"
    category := "maternal", severity := .yellow, endpoint := "maternal" }

theorem evaluateAlerts_dsDeath :
    evaluateAlerts THRESHOLDS dsDeath 0 = [alertDeathG2] := by
  have hga : dsDeath.animals.filter (fun x => decide (x.groupId = gHigh.groupId)) =
      [aDeath] := by decide
  have hca : dsDeath.animals.filter (fun x => decide (x.groupId = gControl.groupId)) =
      ([] : List Animal) := by decide
  have h1 : checkMaternalBodyWeight THRESHOLDS dsDeath gHigh [aDeath] = [] := by
    simp [checkMaternalBodyWeight, worstChangeBelow, aDeath]
  have h2 : checkMaternalFoodConsumption THRESHOLDS dsDeath gHigh [aDeath] [] = [] := by
    simp [checkMaternalFoodConsumption, aDeath]
  have h3 : checkMaternalDeaths THRESHOLDS dsDeath gHigh [aDeath] =
      [{ alertId := "", studyId := "S1", groupId := some "G2"
         category := "maternal", severity := .yellow, endpoint := "maternal" }] := by
    unfold checkMaternalDeaths
    rw [if_pos]
    · have hlen : (List.filter (fun x => x.maternalDeathFlag) [aDeath]).length = 1 := by
        decide
      rw [hlen]
      norm_num [dsDeath, gHigh]
    · have hlen : (List.filter (fun x => x.maternalDeathFlag) [aDeath]).length = 1 := by
        decide
      rw [hlen]
      norm_num [THRESHOLDS]
  have h4 : checkMaternalClinicalSigns THRESHOLDS dsDeath gHigh [aDeath] = [] := by
    unfold checkMaternalClinicalSigns
    rw [if_neg]
    unfold optGt
    norm_num [aDeath, THRESHOLDS]
  have h5 : checkResorptions THRESHOLDS dsDeath gHigh [] [] = [] := by
    simp [checkResorptions, mean, THRESHOLDS]
    norm_num
  have h6 : checkFetalWeight THRESHOLDS dsDeath gHigh [] [] = [] := by
    simp [checkFetalWeight, mean]
  have h7 : checkMalformations THRESHOLDS dsDeath gHigh [] = [] := by
    simp [checkMalformations, THRESHOLDS]
  have hhigh : alertsForGroup THRESHOLDS dsDeath gControl gHigh =
      [{ alertId := "", studyId := "S1", groupId := some "G2"
         category := "maternal", severity := .yellow, endpoint := "maternal" }] := by
    unfold alertsForGroup
    rw [if_neg (by decide)]
    rw [hga, hca]
    rw [show dsDeath.litters.filter (fun l => decide (l.groupId = gHigh.groupId)) =
      ([] : List Litter) from rfl]
    rw [show dsDeath.litters.filter (fun l => decide (l.groupId = gControl.groupId)) =
      ([] : List Litter) from rfl]
    simp only [h1, h2, h3, h4, h5, h6, h7]
    rfl
  have hctrl : alertsForGroup THRESHOLDS dsDeath gControl gControl = [] := by
    unfold alertsForGroup
    rw [if_pos rfl]
  show assignIds 0 ([gControl, gHigh].flatMap (alertsForGroup THRESHOLDS dsDeath gControl)) =
    [alertDeathG2]
  rw [show [gControl, gHigh].flatMap (alertsForGroup THRESHOLDS dsDeath gControl) =
    alertsForGroup THRESHOLDS dsDeath gControl gControl ++
      (alertsForGroup THRESHOLDS dsDeath gControl gHigh ++ []) from rfl]
  rw [hctrl, hhigh]
  rfl

/-- Witness for C1: the one alert `evaluateAlerts` returns on `dsDeath` names
the high-dose group `G2` — a group of the dataset that is not the control. -/
theorem evaluateAlerts_never_targets_control_witness :
    alertDeathG2.groupId ∈ dsDeath.groups.map (fun g => some g.groupId) ∧
    alertDeathG2.groupId ≠ some gControl.groupId :=
  evaluateAlerts_never_targets_control THRESHOLDS dsDeath 0 gControl rfl (by decide)
    alertDeathG2 (by rw [evaluateAlerts_dsDeath]; exact List.mem_singleton_self _)

end DSM
